import Mathlib

/-!
Verification of the GoChik/gpio sysfs GPIO library.

The development shallowly embeds the two source files of the repository
(sysfs.go and the Pin lifecycle file) as pure Lean functions.  External
file-system behaviour is abstracted into a `World` record that fixes the
outcome of every open, write, access and read syscall; each embedded
function returns its Go result together with the list of file-side
effects it performed, so that claims about "no write happened" or about
the order of close and unexport are provable.  Go value receivers are
modelled faithfully: a method with a value receiver cannot mutate the
fields of the pin the caller holds.
-/

namespace GpioSpec

/-- Operating-system level error abstraction.  `errInvalid` is the error
that the Go standard library returns from any method called on a nil
file pointer (os.ErrInvalid via checkValid); `code n` stands for any
other OS errno, such as EBUSY when writing a duplicate pin number to the
export control file. -/
inductive OsErr where
  | errInvalid : OsErr
  | code : Nat → OsErr
deriving DecidableEq, Repr

/-- Errors produced by the library, one constructor per distinct error
value constructed in the Go source.  Underlying OS errors that the
source propagates unchanged are wrapped in `ioErr`. -/
inductive GpioError where
  | exportFailure : GpioError
  | exportTimeout : Nat → Nat → GpioError
  | unexportFailure : GpioError
  | directionOpenFailure : Nat → OsErr → GpioError
  | invalidConfiguration : Nat → Nat → GpioError
  | openFailure : Nat → GpioError
  | wrongDirection : GpioError
  | invalidValue : Nat → GpioError
  | unexpectedValueEncoding : Nat → GpioError
  | ioErr : OsErr → GpioError
deriving DecidableEq, Repr

/-- File-side effects performed by the embedded functions.  File
descriptors are abstract natural numbers handed out by the `World`. -/
inductive Event where
  | openEv : String → Event
  | writeEv : Nat → String → Event
  | closeEv : Nat → Event
  | seekEv : Nat → Event
  | readEv : Nat → Event
deriving DecidableEq, Repr

/-- Outcomes of the syscalls the library performs.  `openResult` maps a
path and open flags to a descriptor or an error; `writeResult` maps a
descriptor and the written bytes to a byte count or an error;
`accessWritable` tells whether unix.Access with W_OK succeeds on a path
at a given number of elapsed milliseconds since the poll started;
`readByte` is the single byte obtained by reading a descriptor. -/
structure World where
  openResult : String → Nat → Except OsErr Nat
  writeResult : Nat → String → Except OsErr Nat
  accessWritable : String → Nat → Bool
  readByte : Nat → Except OsErr Nat

/-- Pin from the lifecycle source file: exported pin number, direction
(a Go uint: 0 is inDirection, 1 is outDirection) and the value-file
handle, `none` standing for a nil *os.File. -/
structure Pin where
  Number : Nat
  direction : Nat
  f : Option Nat
deriving DecidableEq, Repr

/-- Go constant inDirection = iota = 0. -/
def inDirection : Nat := 0

/-- Go constant outDirection = 1. -/
def outDirection : Nat := 1

/-- Path of the export control file. -/
def exportPath : String := "/sys/class/gpio/export"

/-- Path of the unexport control file. -/
def unexportPath : String := "/sys/class/gpio/unexport"

/-- Per-pin direction control file path. -/
def directionPath (n : Nat) : String :=
  "/sys/class/gpio/gpio" ++ toString n ++ "/direction"

/-- Per-pin value control file path. -/
def valuePath (n : Nat) : String :=
  "/sys/class/gpio/gpio" ++ toString n ++ "/value"

/-- Open flags as in the Go os package: O_RDONLY = 0, O_WRONLY = 1,
O_RDWR = 2. -/
def oWRONLY : Nat := 1

/-- The loop body of waitUntilWritable from sysfs.go, with time made
explicit: `elapsed` is time.Since(start) in milliseconds.  Each
iteration first checks `elapsed >= timeout` (timeout = 1 second), then
probes unix.Access on the direction file, and otherwise sleeps 10 ms and
retries, so the recursive call advances `elapsed` by 10. -/
def waitUntilWritableAux (w : World) (pinNumber : Nat) (elapsed : Nat) :
    Except GpioError Unit :=
  if 1000 ≤ elapsed then
    Except.error (GpioError.exportTimeout pinNumber 1000)
  else if w.accessWritable (directionPath pinNumber) elapsed then
    Except.ok ()
  else
    waitUntilWritableAux w pinNumber (elapsed + 10)
termination_by 1000 - elapsed
decreasing_by omega

/-- waitUntilWritable from sysfs.go: the poll starts with zero elapsed
time. -/
def waitUntilWritable (w : World) (p : Pin) : Except GpioError Unit :=
  waitUntilWritableAux w p.Number 0

/-- exportGPIO from sysfs.go.  The export control file is opened for
writing; on open failure the function returns the export failure error.
Otherwise the decimal pin number is written with the result of the
write discarded (the Go source ignores both return values of
export.Write), and the function returns waitUntilWritable.  The deferred
close of the descriptor runs on exit. -/
def exportGpio (w : World) (p : Pin) : Except GpioError Unit × List Event :=
  match w.openResult exportPath oWRONLY with
  | Except.error _ => (Except.error GpioError.exportFailure, [Event.openEv exportPath])
  | Except.ok fd =>
      (waitUntilWritable w p,
       [Event.openEv exportPath, Event.writeEv fd (toString p.Number), Event.closeEv fd])

/-- unexportGPIO from sysfs.go: open the unexport control file, write
the decimal pin number (result again discarded) and return nil. -/
def unexportGpio (w : World) (p : Pin) : Except GpioError Unit × List Event :=
  match w.openResult unexportPath oWRONLY with
  | Except.error _ => (Except.error GpioError.unexportFailure, [Event.openEv unexportPath])
  | Except.ok fd =>
      (Except.ok (),
       [Event.openEv unexportPath, Event.writeEv fd (toString p.Number), Event.closeEv fd])

/-- Result of a Go file.Write on an already-open descriptor: the
underlying OS error is returned unchanged when the write fails. -/
def writeToken (w : World) (fd : Nat) (s : String) : Except GpioError Unit :=
  match w.writeResult fd s with
  | Except.error e => Except.error (GpioError.ioErr e)
  | Except.ok _ => Except.ok ()

/-- setDirection from sysfs.go.  After opening the direction file it
writes "in" when d is inDirection, "low" when d is outDirection and the
initial value is 0, "high" when d is outDirection and the initial value
is 1, and for every other combination sets err to the invalid
configuration error without writing anything.  The deferred close runs
in every case. -/
def setDirection (w : World) (p : Pin) (d : Nat) (initialValue : Nat) :
    Except GpioError Unit × List Event :=
  match w.openResult (directionPath p.Number) oWRONLY with
  | Except.error e =>
      (Except.error (GpioError.directionOpenFailure p.Number e),
       [Event.openEv (directionPath p.Number)])
  | Except.ok fd =>
      if d = inDirection then
        (writeToken w fd "in",
         [Event.openEv (directionPath p.Number), Event.writeEv fd "in", Event.closeEv fd])
      else if d = outDirection ∧ initialValue = 0 then
        (writeToken w fd "low",
         [Event.openEv (directionPath p.Number), Event.writeEv fd "low", Event.closeEv fd])
      else if d = outDirection ∧ initialValue = 1 then
        (writeToken w fd "high",
         [Event.openEv (directionPath p.Number), Event.writeEv fd "high", Event.closeEv fd])
      else
        (Except.error (GpioError.invalidConfiguration d initialValue),
         [Event.openEv (directionPath p.Number), Event.closeEv fd])

/-- openPin from sysfs.go: the value file is opened read-only or
read-write according to the `write` flag; on success the returned pin
carries the new descriptor in its f field. -/
def openPin (w : World) (p : Pin) (write : Bool) :
    (Pin × Except GpioError Unit) × List Event :=
  let flags : Nat := if write then 2 else 0
  match w.openResult (valuePath p.Number) flags with
  | Except.error _ =>
      ((p, Except.error (GpioError.openFailure p.Number)), [Event.openEv (valuePath p.Number)])
  | Except.ok fd =>
      (({ p with f := some fd }, Except.ok ()), [Event.openEv (valuePath p.Number)])

/-- readPin from sysfs.go.  When p.f is nil, the Go standard library
makes file.Seek return os.ErrInvalid (which the source discards) and
file.Read return os.ErrInvalid, so the function returns that error
without any I/O.  Otherwise it seeks to the start, reads one byte, and
maps byte 48 (the ASCII digit zero) to 0 and byte 49 (the ASCII digit
one) to 1; a read error is returned unchanged and any other byte yields
the inconsistent-value error. -/
def readPin (w : World) (p : Pin) : Except GpioError Nat × List Event :=
  match p.f with
  | none => (Except.error (GpioError.ioErr OsErr.errInvalid), [])
  | some fd =>
      match w.readByte fd with
      | Except.error e =>
          (Except.error (GpioError.ioErr e), [Event.seekEv fd, Event.readEv fd])
      | Except.ok c =>
          if c = 48 then (Except.ok 0, [Event.seekEv fd, Event.readEv fd])
          else if c = 49 then (Except.ok 1, [Event.seekEv fd, Event.readEv fd])
          else (Except.error (GpioError.unexpectedValueEncoding c),
                [Event.seekEv fd, Event.readEv fd])

/-- Behaviour of p.f.Write in writePin: a nil handle yields
os.ErrInvalid with no I/O, otherwise the write is attempted and an OS
error is propagated unchanged. -/
def fileWrite (w : World) (f : Option Nat) (s : String) :
    Except GpioError Unit × List Event :=
  match f with
  | none => (Except.error (GpioError.ioErr OsErr.errInvalid), [])
  | some fd =>
      match w.writeResult fd s with
      | Except.error e => (Except.error (GpioError.ioErr e), [Event.writeEv fd s])
      | Except.ok _ => (Except.ok (), [Event.writeEv fd s])

/-- writePin from sysfs.go: value 0 writes the ASCII digit zero, value
1 writes the ASCII digit one, and any other value returns the invalid
output value error before touching the file. -/
def writePin (w : World) (p : Pin) (v : Nat) : Except GpioError Unit × List Event :=
  if v = 0 then fileWrite w p.f "0"
  else if v = 1 then fileWrite w p.f "1"
  else (Except.error (GpioError.invalidValue v), [])

/-- NewInput from the lifecycle source file: a zero pin value with the
requested number is exported, its direction field set to inDirection,
the direction token written, and finally the value file opened
read-only.  Any intermediate failure returns the pin built so far with
that first error. -/
def NewInput (w : World) (n : Nat) : (Pin × Except GpioError Unit) × List Event :=
  let pin : Pin := { Number := n, direction := 0, f := none }
  match exportGpio w pin with
  | (Except.error e, evs) => ((pin, Except.error e), evs)
  | (Except.ok _, evs) =>
      let pin2 : Pin := { pin with direction := inDirection }
      match setDirection w pin2 inDirection 0 with
      | (Except.error e, evs2) => ((pin2, Except.error e), evs ++ evs2)
      | (Except.ok _, evs2) =>
          let o := openPin w pin2 false
          (o.1, evs ++ evs2 ++ o.2)

/-- NewOutput from the lifecycle source file: like NewInput but the
direction token carries the requested initial level (1 when initHigh,
otherwise 0) and the value file is opened read-write. -/
def NewOutput (w : World) (n : Nat) (initHigh : Bool) :
    (Pin × Except GpioError Unit) × List Event :=
  let pin : Pin := { Number := n, direction := 0, f := none }
  match exportGpio w pin with
  | (Except.error e, evs) => ((pin, Except.error e), evs)
  | (Except.ok _, evs) =>
      let initVal : Nat := if initHigh then 1 else 0
      let pin2 : Pin := { pin with direction := outDirection }
      match setDirection w pin2 outDirection initVal with
      | (Except.error e, evs2) => ((pin2, Except.error e), evs ++ evs2)
      | (Except.ok _, evs2) =>
          let o := openPin w pin2 true
          (o.1, evs ++ evs2 ++ o.2)

/-- Body of Pin.Close as executed on the method-local copy of the
receiver: when the copy holds a handle the file is closed and the f
field of the copy is set to nil, otherwise nothing happens. -/
def closeCopy (p : Pin) : Pin × List Event :=
  match p.f with
  | some fd => ({ p with f := none }, [Event.closeEv fd])
  | none => (p, [])

/-- Pin.Close from the lifecycle source file.  The Go method is declared
with a value receiver and returns nothing, so the assignment of nil to
the f field only changes the method-local copy and the pin the caller
holds is returned unchanged; the first component is the caller-visible
pin after the call and the second the file-close events performed. -/
def Pin.Close (p : Pin) : Pin × List Event :=
  (p, (closeCopy p).2)

/-- Pin.Cleanup from the lifecycle source file: call Close on the
receiver copy (whose value receiver leaves this copy unchanged), then
return the result of unexportGPIO on the pin. -/
def Pin.Cleanup (w : World) (p : Pin) : Except GpioError Unit × List Event :=
  let c := Pin.Close p
  let u := unexportGpio w c.1
  (u.1, c.2 ++ u.2)

/-- Pin.Read from the lifecycle source file: an unconditional delegation
to readPin, with no direction check. -/
def Pin.Read (w : World) (p : Pin) : Except GpioError Nat × List Event :=
  readPin w p

/-- Pin.High from the lifecycle source file: an error when the direction
field differs from outDirection, otherwise writePin with 1. -/
def Pin.High (w : World) (p : Pin) : Except GpioError Unit × List Event :=
  if p.direction ≠ outDirection then (Except.error GpioError.wrongDirection, [])
  else writePin w p 1

/-- Pin.Low from the lifecycle source file: an error when the direction
field differs from outDirection, otherwise writePin with 0. -/
def Pin.Low (w : World) (p : Pin) : Except GpioError Unit × List Event :=
  if p.direction ≠ outDirection then (Except.error GpioError.wrongDirection, [])
  else writePin w p 0

/-- World in which every syscall succeeds: opens hand out descriptor 7,
writes succeed, the direction file is writable immediately, and the
value file holds the ASCII digit one. -/
def wAll : World :=
  { openResult := fun _ _ => Except.ok 7
    writeResult := fun _ _ => Except.ok 1
    accessWritable := fun _ _ => true
    readByte := fun _ => Except.ok 49 }

/-- World of a duplicate export: the export control file opens fine,
but every write is rejected with errno 16 (EBUSY), as the kernel does
when the pin is already exported; the per-pin files of the already
exported pin are present and writable. -/
def wDup : World :=
  { openResult := fun _ _ => Except.ok 4
    writeResult := fun _ _ => Except.error (OsErr.code 16)
    accessWritable := fun _ _ => true
    readByte := fun _ => Except.ok 48 }

/-- The poll loop terminates with one of its two outcomes whenever at
most `m` further probes fit before the deadline. -/
theorem waitAux_cases (w : World) (n : Nat) (m : Nat) :
    ∀ e, 1000 ≤ e + 10 * m →
      waitUntilWritableAux w n e = Except.ok () ∨
      waitUntilWritableAux w n e = Except.error (GpioError.exportTimeout n 1000) := by
  induction m with
  | zero =>
      intro e h
      rw [waitUntilWritableAux]
      have h1 : 1000 ≤ e := by omega
      simp [h1]
  | succ k ih =>
      intro e h
      rw [waitUntilWritableAux]
      by_cases h1 : 1000 ≤ e
      · simp [h1]
      · by_cases h2 : w.accessWritable (directionPath n) e = true
        · simp [h1, h2]
        · have h2f : w.accessWritable (directionPath n) e = false := by
            cases hx : w.accessWritable (directionPath n) e
            · rfl
            · exact absurd hx h2
          simp only [h1, if_false, h2f, Bool.false_eq_true]
          exact ih (e + 10) (by omega)

/-- The poll loop succeeds exactly when some probe instant before the
deadline finds the file writable. -/
theorem waitAux_ok_iff (w : World) (n : Nat) (m : Nat) :
    ∀ e, 1000 ≤ e + 10 * m →
      (waitUntilWritableAux w n e = Except.ok () ↔
       ∃ k, e + 10 * k < 1000 ∧
         w.accessWritable (directionPath n) (e + 10 * k) = true) := by
  induction m with
  | zero =>
      intro e h
      rw [waitUntilWritableAux]
      have h1 : 1000 ≤ e := by omega
      simp only [h1, if_true, if_pos]
      constructor
      · intro hc
        exact absurd hc (by simp)
      · rintro ⟨k, hk1, hk2⟩
        omega
  | succ m2 ih =>
      intro e h
      rw [waitUntilWritableAux]
      by_cases h1 : 1000 ≤ e
      · simp only [h1, if_true, if_pos]
        constructor
        · intro hc
          exact absurd hc (by simp)
        · rintro ⟨k, hk1, hk2⟩
          omega
      · by_cases h2 : w.accessWritable (directionPath n) e = true
        · simp only [h1, if_false, h2, if_true, if_pos]
          constructor
          · intro _
            exact ⟨0, by omega, by simpa using h2⟩
          · intro _
            trivial
        · have h2f : w.accessWritable (directionPath n) e = false := by
            cases hx : w.accessWritable (directionPath n) e
            · rfl
            · exact absurd hx h2
          simp only [h1, if_false, h2f, Bool.false_eq_true]
          rw [ih (e + 10) (by omega)]
          constructor
          · rintro ⟨k, hk1, hk2⟩
            refine ⟨k + 1, by omega, ?_⟩
            have harg : e + 10 * (k + 1) = e + 10 + 10 * k := by ring
            rw [harg]
            exact hk2
          · rintro ⟨k, hk1, hk2⟩
            cases k with
            | zero =>
                exfalso
                simp only [Nat.mul_zero, Nat.add_zero] at hk2
                rw [h2f] at hk2
                exact Bool.false_ne_true hk2
            | succ k2 =>
                refine ⟨k2, by omega, ?_⟩
                have harg : e + 10 + 10 * k2 = e + 10 * (k2 + 1) := by ring
                rw [harg]
                exact hk2

/-- Immediate success of the poll when the direction file is writable
at the very first probe. -/
theorem waitUntilWritable_immediate (w : World) (p : Pin)
    (h : w.accessWritable (directionPath p.Number) 0 = true) :
    waitUntilWritable w p = Except.ok () := by
  rw [waitUntilWritable, waitUntilWritableAux]
  simp [h]

/-- Projection of the all-succeeding world: every open yields 7. -/
theorem wAll_open (s : String) (fl : Nat) : wAll.openResult s fl = Except.ok 7 := rfl

/-- Projection of the all-succeeding world: every write succeeds. -/
theorem wAll_write (fd : Nat) (s : String) : wAll.writeResult fd s = Except.ok 1 := rfl

/-- Projection of the all-succeeding world: every read yields byte 49. -/
theorem wAll_read (fd : Nat) : wAll.readByte fd = Except.ok 49 := rfl

/-- Concrete evaluation of exportGPIO in the all-succeeding world. -/
theorem exportGpio_wAll (p : Pin) :
    exportGpio wAll p =
      (Except.ok (),
       [Event.openEv exportPath, Event.writeEv 7 (toString p.Number), Event.closeEv 7]) := by
  simp [exportGpio, wAll_open]
  exact waitUntilWritable_immediate wAll p rfl

/-- Concrete evaluation of NewInput in the all-succeeding world: the
construction succeeds and yields an input pin holding descriptor 7. -/
theorem NewInput_wAll (n : Nat) :
    (NewInput wAll n).1 = ({ Number := n, direction := 0, f := some 7 }, Except.ok ()) := by
  have h := exportGpio_wAll { Number := n, direction := 0, f := none }
  simp [NewInput, h, setDirection, openPin, writeToken, wAll_open, wAll_write,
    inDirection, outDirection]

/-- Concrete evaluation of NewOutput in the all-succeeding world: the
construction succeeds and yields an output pin holding descriptor 7. -/
theorem NewOutput_wAll (n : Nat) (b : Bool) :
    (NewOutput wAll n b).1 = ({ Number := n, direction := 1, f := some 7 }, Except.ok ()) := by
  have h := exportGpio_wAll { Number := n, direction := 0, f := none }
  cases b <;>
    simp [NewOutput, h, setDirection, openPin, writeToken, wAll_open, wAll_write,
      inDirection, outDirection]

/-- A pin successfully constructed by NewInput carries direction
inDirection: every success path sets the field before opening the value
file, and openPin only changes the f field. -/
theorem NewInput_ok_direction (w : World) (n : Nat) (p : Pin)
    (h : (NewInput w n).1 = (p, Except.ok ())) : p.direction = inDirection := by
  simp only [NewInput] at h
  split at h
  · simp only [Prod.mk.injEq] at h
    exact absurd h.2 (by simp)
  · split at h
    · simp only [Prod.mk.injEq] at h
      exact absurd h.2 (by simp)
    · simp only [openPin] at h
      split at h
      · simp only [Prod.mk.injEq] at h
        exact absurd h.2 (by simp)
      · simp only [Prod.mk.injEq] at h
        rw [← h.1]

/-- Projection of the duplicate-export world: every open yields 4. -/
theorem wDup_open (s : String) (fl : Nat) : wDup.openResult s fl = Except.ok 4 := rfl

/-- Claim C1, counterexample: in the duplicate-export world the export
control file opens, the kernel rejects the written decimal pin number
with EBUSY, and the per-pin direction file of the already exported pin
is writable; exportGPIO nevertheless returns success because the Go
source discards the result of export.Write, so the claim that Export
must fail with ExportFailure whenever the write is rejected is false. -/
theorem C1_counterexample :
    wDup.writeResult 4 "7" = Except.error (OsErr.code 16) ∧
    (exportGpio wDup { Number := 7, direction := 0, f := none }).1 = Except.ok () := by
  refine ⟨rfl, ?_⟩
  have h : waitUntilWritable wDup { Number := 7, direction := 0, f := none } =
      Except.ok () := waitUntilWritable_immediate wDup _ rfl
  simp [exportGpio, wDup_open, h]

/-- Claim C1, amended: Export fails with ExportFailure exactly when the
export control file cannot be opened for writing; once the file is
open, the result of writing the decimal pin number is discarded, and
exportGPIO returns whatever waitUntilWritable returns for the pin. -/
theorem C1_export_amended (w : World) (p : Pin) :
    ((∃ e, w.openResult exportPath oWRONLY = Except.error e) →
      (exportGpio w p).1 = Except.error GpioError.exportFailure) ∧
    (∀ fd, w.openResult exportPath oWRONLY = Except.ok fd →
      exportGpio w p =
        (waitUntilWritable w p,
         [Event.openEv exportPath, Event.writeEv fd (toString p.Number), Event.closeEv fd])) := by
  constructor
  · rintro ⟨e, he⟩
    simp [exportGpio, he]
  · intro fd hfd
    simp [exportGpio, hfd]

/-- Witness for the amended claim C1 at the all-succeeding world. -/
theorem C1_export_amended_witness :
    exportGpio wAll { Number := 8, direction := 0, f := none } =
      (waitUntilWritable wAll { Number := 8, direction := 0, f := none },
       [Event.openEv exportPath, Event.writeEv 7 (toString (8 : Nat)), Event.closeEv 7]) :=
  (C1_export_amended wAll { Number := 8, direction := 0, f := none }).2 7 rfl

/-- Claim C2, evaluated at the failing input: a pin holding an open
handle keeps that handle after Close returns, because the value
receiver of the Go method discards the assignment of nil, so a second
Close call performs a second file-close attempt instead of being the
claimed no-op. -/
theorem C2_close_double_close_eval :
    (Pin.Close { Number := 3, direction := 1, f := some 9 }).1.f = some 9 ∧
    (Pin.Close (Pin.Close { Number := 3, direction := 1, f := some 9 }).1).2 =
      [Event.closeEv 9] := by
  constructor
  · rfl
  · rfl

/-- Claim C3, evaluated at the failing input: after Close returns, the
pin the caller holds is completely unchanged, so its pin number and
direction are indeed preserved and no unexport happens (the only event
is the close of descriptor 9), but the value-file handle is not null as
the claim states. -/
theorem C3_close_frame_eval :
    (Pin.Close { Number := 3, direction := 1, f := some 9 }).1 =
      { Number := 3, direction := 1, f := some 9 } ∧
    (Pin.Close { Number := 3, direction := 1, f := some 9 }).2 = [Event.closeEv 9] := by
  constructor
  · rfl
  · rfl

/-- Claim C4: a pin successfully constructed by NewInput has direction
inDirection, and on such a pin High and Low return the wrong-direction
error with no file write in any world; on every pin whose direction is
outDirection, High delegates to writePin with 1 and Low to writePin
with 0. -/
theorem C4_high_low_direction_gate :
    (∀ w n p, (NewInput w n).1 = (p, Except.ok ()) →
      p.direction = inDirection ∧
      ∀ w2, Pin.High w2 p = (Except.error GpioError.wrongDirection, []) ∧
            Pin.Low w2 p = (Except.error GpioError.wrongDirection, [])) ∧
    (∀ w p, p.direction = outDirection →
      Pin.High w p = writePin w p 1 ∧ Pin.Low w p = writePin w p 0) := by
  constructor
  · intro w n p h
    have hd := NewInput_ok_direction w n p h
    refine ⟨hd, fun w2 => ?_⟩
    constructor
    · simp [Pin.High, hd, inDirection, outDirection]
    · simp [Pin.Low, hd, inDirection, outDirection]
  · intro w p h
    constructor
    · simp [Pin.High, h, outDirection]
    · simp [Pin.Low, h, outDirection]

/-- Witness for claim C4: a concrete NewInput construction whose pin
rejects High with the wrong-direction error and no write event. -/
theorem C4_high_low_direction_gate_witness :
    Pin.High wAll { Number := 5, direction := 0, f := some 7 } =
      (Except.error GpioError.wrongDirection, []) :=
  ((C4_high_low_direction_gate.1 wAll 5 { Number := 5, direction := 0, f := some 7 }
      (NewInput_wAll 5)).2 wAll).1

/-- Claim C5: the poll of waitUntilWritable always terminates with one
of exactly two outcomes, success or the ExportTimeout error naming the
pin and the 1000 ms bound, and it succeeds exactly when one of the 100
probe instants 0 ms, 10 ms, ..., 990 ms inside the one-second window
finds the direction file writable; with a file that never becomes
writable it therefore fails with ExportTimeout, and only after the full
window of probes has been exhausted. -/
theorem C5_wait_bounded_termination (w : World) (p : Pin) :
    (waitUntilWritable w p = Except.ok () ∨
     waitUntilWritable w p = Except.error (GpioError.exportTimeout p.Number 1000)) ∧
    (waitUntilWritable w p = Except.ok () ↔
     ∃ k, k < 100 ∧ w.accessWritable (directionPath p.Number) (10 * k) = true) := by
  constructor
  · exact waitAux_cases w p.Number 100 0 (by omega)
  · rw [waitUntilWritable, waitAux_ok_iff w p.Number 100 0 (by omega)]
    constructor
    · rintro ⟨k, hk1, hk2⟩
      exact ⟨k, by omega, by simpa using hk2⟩
    · rintro ⟨k, hk1, hk2⟩
      exact ⟨k, by omega, by simpa using hk2⟩

/-- Claim C6: with the direction file open on descriptor fd,
setDirection writes exactly the token "in" for inDirection, "low" for
outDirection with initial value 0, "high" for outDirection with initial
value 1, and for every other combination returns the invalid
configuration error having written nothing (the event trace holds only
the open and the deferred close). -/
theorem C6_setDirection_tokens (w : World) (p : Pin) (d v fd : Nat)
    (hopen : w.openResult (directionPath p.Number) oWRONLY = Except.ok fd) :
    (d = inDirection →
      setDirection w p d v =
        (writeToken w fd "in",
         [Event.openEv (directionPath p.Number), Event.writeEv fd "in", Event.closeEv fd])) ∧
    (d = outDirection → v = 0 →
      setDirection w p d v =
        (writeToken w fd "low",
         [Event.openEv (directionPath p.Number), Event.writeEv fd "low", Event.closeEv fd])) ∧
    (d = outDirection → v = 1 →
      setDirection w p d v =
        (writeToken w fd "high",
         [Event.openEv (directionPath p.Number), Event.writeEv fd "high", Event.closeEv fd])) ∧
    (d ≠ inDirection → ¬(d = outDirection ∧ (v = 0 ∨ v = 1)) →
      setDirection w p d v =
        (Except.error (GpioError.invalidConfiguration d v),
         [Event.openEv (directionPath p.Number), Event.closeEv fd])) := by
  refine ⟨?_, ?_, ?_, ?_⟩
  · intro h1
    simp [setDirection, hopen, h1]
  · intro h1 h2
    simp [setDirection, hopen, h1, h2, inDirection, outDirection]
  · intro h1 h2
    simp [setDirection, hopen, h1, h2, inDirection, outDirection]
  · intro h1 h2
    have hA : ¬(d = outDirection ∧ v = 0) := fun hx => h2 ⟨hx.1, Or.inl hx.2⟩
    have hB : ¬(d = outDirection ∧ v = 1) := fun hx => h2 ⟨hx.1, Or.inr hx.2⟩
    simp [setDirection, hopen, h1, hA, hB]

/-- Witness for claim C6: the invalid combination of direction 3 and
value 2 yields the invalid configuration error and no write event. -/
theorem C6_setDirection_tokens_witness :
    setDirection wAll { Number := 5, direction := 0, f := none } 3 2 =
      (Except.error (GpioError.invalidConfiguration 3 2),
       [Event.openEv (directionPath 5), Event.closeEv 7]) :=
  (C6_setDirection_tokens wAll { Number := 5, direction := 0, f := none } 3 2 7 rfl).2.2.2
    (by decide) (by decide)

/-- Claim C7: with an open handle, readPin seeks to the start and reads
one byte; byte 48 (the ASCII digit zero) yields 0, byte 49 (the ASCII
digit one) yields 1, any other byte yields the inconsistent-value error
rather than a coerced value, and a failing read propagates the
underlying I/O error. -/
theorem C7_readPin_byte_mapping (w : World) (p : Pin) (fd : Nat) (hf : p.f = some fd) :
    (w.readByte fd = Except.ok 48 →
      readPin w p = (Except.ok 0, [Event.seekEv fd, Event.readEv fd])) ∧
    (w.readByte fd = Except.ok 49 →
      readPin w p = (Except.ok 1, [Event.seekEv fd, Event.readEv fd])) ∧
    (∀ c, w.readByte fd = Except.ok c → c ≠ 48 → c ≠ 49 →
      readPin w p =
        (Except.error (GpioError.unexpectedValueEncoding c),
         [Event.seekEv fd, Event.readEv fd])) ∧
    (∀ e, w.readByte fd = Except.error e →
      readPin w p = (Except.error (GpioError.ioErr e), [Event.seekEv fd, Event.readEv fd])) := by
  refine ⟨?_, ?_, ?_, ?_⟩
  · intro h
    simp [readPin, hf, h]
  · intro h
    simp [readPin, hf, h]
  · intro c h h1 h2
    simp [readPin, hf, h, h1, h2]
  · intro e h
    simp [readPin, hf, h]

/-- Witness for claim C7: the value file holding the ASCII digit one is
read as 1. -/
theorem C7_readPin_byte_mapping_witness :
    readPin wAll { Number := 5, direction := 0, f := some 7 } =
      (Except.ok 1, [Event.seekEv 7, Event.readEv 7]) :=
  (C7_readPin_byte_mapping wAll { Number := 5, direction := 0, f := some 7 } 7 rfl).2.1 rfl

/-- Claim C8: Cleanup performs the Close events first and the unexport
events after them, its outcome is exactly the unexportGPIO outcome
(Close contributes no error at all), failing with the unexport failure
error when the unexport control file cannot be opened and succeeding
whenever it can. -/
theorem C8_cleanup_order (w : World) (p : Pin) :
    (Pin.Cleanup w p).2 = (Pin.Close p).2 ++ (unexportGpio w p).2 ∧
    (Pin.Cleanup w p).1 = (unexportGpio w p).1 ∧
    ((∃ e, w.openResult unexportPath oWRONLY = Except.error e) →
      (Pin.Cleanup w p).1 = Except.error GpioError.unexportFailure) ∧
    (∀ fd, w.openResult unexportPath oWRONLY = Except.ok fd →
      (Pin.Cleanup w p).1 = Except.ok ()) := by
  refine ⟨rfl, rfl, ?_, ?_⟩
  · rintro ⟨e, he⟩
    simp [Pin.Cleanup, Pin.Close, unexportGpio, he]
  · intro fd hfd
    simp [Pin.Cleanup, Pin.Close, unexportGpio, hfd]

/-- Witness for claim C8 at the all-succeeding world. -/
theorem C8_cleanup_order_witness :
    (Pin.Cleanup wAll { Number := 5, direction := 1, f := some 7 }).1 = Except.ok () :=
  (C8_cleanup_order wAll { Number := 5, direction := 1, f := some 7 }).2.2.2 7 rfl

/-- Claim C9, counterexample: NewOutput in the all-succeeding world
returns an output pin, and Read on that very pin is available and
delegates straight to readPin, returning the read value with no
wrong-direction rejection, so no type-level direction gate prevents
Read on output pins. -/
theorem C9_counterexample :
    (NewOutput wAll 3 true).1 = ({ Number := 3, direction := 1, f := some 7 }, Except.ok ()) ∧
    Pin.Read wAll { Number := 3, direction := 1, f := some 7 } =
      (Except.ok 1, [Event.seekEv 7, Event.readEv 7]) := by
  refine ⟨NewOutput_wAll 3 true, ?_⟩
  simp [Pin.Read, readPin, wAll_read]

/-- Claim C9, amended: Read delegates unconditionally to readPin for
every pin, whatever its direction, and never produces the
wrong-direction error; the input-only restriction is documentation
only and reading does not alter the pin. -/
theorem C9_read_no_gate (w : World) (p : Pin) :
    Pin.Read w p = readPin w p ∧
    (Pin.Read w p).1 ≠ Except.error GpioError.wrongDirection := by
  refine ⟨rfl, ?_⟩
  cases hf : p.f with
  | none => simp [Pin.Read, readPin, hf]
  | some fd =>
      cases hr : w.readByte fd with
      | error e => simp [Pin.Read, readPin, hf, hr]
      | ok c =>
          by_cases h1 : c = 48
          · simp [Pin.Read, readPin, hf, hr, h1]
          · by_cases h2 : c = 49
            · simp [Pin.Read, readPin, hf, hr, h1, h2]
            · simp [Pin.Read, readPin, hf, hr, h1, h2]

/-- Witness for the amended claim C9 at a concrete output pin. -/
theorem C9_read_no_gate_witness :
    Pin.Read wAll { Number := 3, direction := 1, f := some 7 } =
      readPin wAll { Number := 3, direction := 1, f := some 7 } ∧
    (Pin.Read wAll { Number := 3, direction := 1, f := some 7 }).1 ≠
      Except.error GpioError.wrongDirection :=
  C9_read_no_gate wAll { Number := 3, direction := 1, f := some 7 }

/-- Claim C10: on every pin whose value-file handle is nil, Read is
total and returns the invalid-handle error as an ordinary result with
no I/O performed, exactly as the Go standard library reports
os.ErrInvalid from a read on a nil file. -/
theorem C10_read_nil_total (w : World) (p : Pin) (h : p.f = none) :
    Pin.Read w p = (Except.error (GpioError.ioErr OsErr.errInvalid), []) := by
  simp [Pin.Read, readPin, h]

/-- Witness for claim C10: a never-opened pin. -/
theorem C10_read_nil_total_witness :
    Pin.Read wAll { Number := 5, direction := 0, f := none } =
      (Except.error (GpioError.ioErr OsErr.errInvalid), []) :=
  C10_read_nil_total wAll { Number := 5, direction := 0, f := none } rfl

end GpioSpec
